import Mathlib

/-!
Verification of the scoring core of the NUST Aggregate Calculator web app.

The development shallowly embeds the five pure scoring modules
(`calcAggregate.ts`, `chancePredictor.ts`, `meritListPredictor.ts`,
`netScoreRecommender.ts`, `preferenceGenerator.ts`) over `ℚ`:

* JavaScript numbers are modelled as rationals; `x.toFixed(2)` followed by
  `parseFloat` is modelled by `round2` (round half-up to two decimals) and
  `Math.round` by Mathlib's `round` (both are `⌊x + 1/2⌋`).
* Optional / nullable numeric fields are `Option ℚ`; absent object keys are
  `none`.
* Display-only string fields (`explanation`, `tips`, colour classes, program
  names) are omitted from the embedded records; they are built by pure string
  templates in the source and no verified property mentions them.  The
  user-facing `recommendations` strings of the preference generator are kept,
  since the error-handling contract names one of them literally.
-/

/- ============================================================
   calcAggregate.ts
   ============================================================ -/

/-- Embeds `AggregateInput` from calcAggregate.ts.  `useEquivalence?: boolean` is
modelled as `Bool` (JS `undefined` is falsy in every test the source performs
on it), `equivalencePercentage?: number` as `Option ℚ`. -/
structure AggregateInput where
  netScore : ℚ
  hscPercentage : ℚ
  sscPercentage : ℚ
  useEquivalence : Bool
  equivalencePercentage : Option ℚ
deriving DecidableEq, Repr

/-- Embeds `AggregateBreakdown` from calcAggregate.ts (the `explanation` string is
omitted, see the file header). -/
structure AggregateBreakdown where
  netContribution : ℚ
  hscContribution : ℚ
  sscContribution : ℚ
  equivalenceContribution : Option ℚ
  totalAggregate : ℚ
  isOALevel : Bool
deriving DecidableEq, Repr

/-- Embeds `ValidationResult` from calcAggregate.ts. -/
structure ValidationResult where
  isValid : Bool
  errors : List String
deriving DecidableEq, Repr

/-- The FSc weight table of `AGGREGATE_CONFIG.WEIGHTS_FSC`. -/
structure FscWeights where
  NET : ℚ
  HSC : ℚ
  SSC : ℚ
deriving DecidableEq, Repr

/-- The O/A-Level weight table of `AGGREGATE_CONFIG.WEIGHTS_OA_LEVEL`. -/
structure OaLevelWeights where
  NET : ℚ
  EQUIVALENCE : ℚ
deriving DecidableEq, Repr

/-- Shape of `AGGREGATE_CONFIG` in calcAggregate.ts.  Note that the object has
no `WEIGHTS` key (this matters for netScoreRecommender.ts below). -/
structure AggregateConfig where
  MAX_NET_SCORE : ℚ
  WEIGHTS_FSC : FscWeights
  WEIGHTS_OA_LEVEL : OaLevelWeights
  MIN_PERCENTAGE : ℚ
  MAX_PERCENTAGE : ℚ
deriving DecidableEq, Repr

/-- Embeds `AGGREGATE_CONFIG` from calcAggregate.ts. -/
def AGGREGATE_CONFIG : AggregateConfig :=
  { MAX_NET_SCORE := 200
    WEIGHTS_FSC := { NET := 0.75, HSC := 0.15, SSC := 0.10 }
    WEIGHTS_OA_LEVEL := { NET := 0.75, EQUIVALENCE := 0.25 }
    MIN_PERCENTAGE := 0
    MAX_PERCENTAGE := 100 }

/-- Model of `parseFloat(x.toFixed(2))`: round to the nearest multiple of
`1/100`, halves up (JS `toFixed` picks the larger candidate on ties). -/
def round2 (x : ℚ) : ℚ := ((round (100 * x) : ℤ) : ℚ) / 100

/-- Embeds `validateAggregateInput` from calcAggregate.ts.  Error strings are the
source messages with the (constant) template holes filled in. -/
def validateAggregateInput (input : AggregateInput) : ValidationResult :=
  let netErrors : List String :=
    (if input.netScore < 0 then ["NET score cannot be negative"] else []) ++
    (if input.netScore > AGGREGATE_CONFIG.MAX_NET_SCORE then
      ["NET score cannot exceed 200"] else [])
  let branchErrors : List String :=
    if input.useEquivalence then
      match input.equivalencePercentage with
      | none => ["Equivalence percentage is required for O/A Level students"]
      | some e =>
          (if e < AGGREGATE_CONFIG.MIN_PERCENTAGE then
            ["Equivalence percentage cannot be negative"] else []) ++
          (if e > AGGREGATE_CONFIG.MAX_PERCENTAGE then
            ["Equivalence percentage cannot exceed 100%"] else [])
    else
      (if input.hscPercentage < AGGREGATE_CONFIG.MIN_PERCENTAGE then
        ["HSC/FSc percentage cannot be negative"] else []) ++
      (if input.hscPercentage > AGGREGATE_CONFIG.MAX_PERCENTAGE then
        ["HSC/FSc percentage cannot exceed 100%"] else []) ++
      (if input.sscPercentage < AGGREGATE_CONFIG.MIN_PERCENTAGE then
        ["SSC/Matric percentage cannot be negative"] else []) ++
      (if input.sscPercentage > AGGREGATE_CONFIG.MAX_PERCENTAGE then
        ["SSC/Matric percentage cannot exceed 100%"] else [])
  let errors := netErrors ++ branchErrors
  { isValid := errors.length == 0, errors := errors }

/-- Embeds `netScoreToPercentage` from calcAggregate.ts. -/
def netScoreToPercentage (netScore : ℚ) : ℚ :=
  netScore / AGGREGATE_CONFIG.MAX_NET_SCORE * 100

/-- Embeds `calculateAggregate` from calcAggregate.ts.  The O/A-Level branch is taken
exactly when `input.useEquivalence && input.equivalencePercentage !== undefined`. -/
def calculateAggregate (input : AggregateInput) : AggregateBreakdown :=
  let netPercentage := netScoreToPercentage input.netScore
  match input.useEquivalence, input.equivalencePercentage with
  | true, some equivalencePercentage =>
      let netContribution := netPercentage * AGGREGATE_CONFIG.WEIGHTS_OA_LEVEL.NET
      let equivalenceContribution :=
        equivalencePercentage * AGGREGATE_CONFIG.WEIGHTS_OA_LEVEL.EQUIVALENCE
      let totalAggregate := netContribution + equivalenceContribution
      { netContribution := round2 netContribution
        hscContribution := 0
        sscContribution := 0
        equivalenceContribution := some (round2 equivalenceContribution)
        totalAggregate := round2 totalAggregate
        isOALevel := true }
  | _, _ =>
      let netContribution := netPercentage * AGGREGATE_CONFIG.WEIGHTS_FSC.NET
      let hscContribution := input.hscPercentage * AGGREGATE_CONFIG.WEIGHTS_FSC.HSC
      let sscContribution := input.sscPercentage * AGGREGATE_CONFIG.WEIGHTS_FSC.SSC
      let totalAggregate := netContribution + hscContribution + sscContribution
      { netContribution := round2 netContribution
        hscContribution := round2 hscContribution
        sscContribution := round2 sscContribution
        equivalenceContribution := none
        totalAggregate := round2 totalAggregate
        isOALevel := false }

/-- Return type of `calculateRequiredNetScore`. -/
structure RequiredNetScoreResult where
  requiredNetScore : ℚ
  requiredNetPercentage : ℚ
  achievable : Bool
deriving DecidableEq, Repr

/-- Embeds `calculateRequiredNetScore` from calcAggregate.ts.  `Math.ceil` is `⌈·⌉`,
and the returned score is `Math.max(0, Math.min(200, Math.ceil(raw)))`. -/
def calculateRequiredNetScore (targetAggregate hscPercentage sscPercentage : ℚ)
    (useEquivalence : Bool) (equivalencePercentage : Option ℚ) :
    RequiredNetScoreResult :=
  let requiredNetPercentage : ℚ :=
    match useEquivalence, equivalencePercentage with
    | true, some equivalencePercentage =>
        let equivalenceContribution :=
          equivalencePercentage * AGGREGATE_CONFIG.WEIGHTS_OA_LEVEL.EQUIVALENCE
        (targetAggregate - equivalenceContribution) / AGGREGATE_CONFIG.WEIGHTS_OA_LEVEL.NET
    | _, _ =>
        let hscContribution := hscPercentage * AGGREGATE_CONFIG.WEIGHTS_FSC.HSC
        let sscContribution := sscPercentage * AGGREGATE_CONFIG.WEIGHTS_FSC.SSC
        (targetAggregate - hscContribution - sscContribution) /
          AGGREGATE_CONFIG.WEIGHTS_FSC.NET
  let requiredNetScore : ℚ :=
    requiredNetPercentage / 100 * AGGREGATE_CONFIG.MAX_NET_SCORE
  let achievable : Bool :=
    decide (0 ≤ requiredNetScore ∧ requiredNetScore ≤ AGGREGATE_CONFIG.MAX_NET_SCORE)
  { requiredNetScore :=
      max 0 (min AGGREGATE_CONFIG.MAX_NET_SCORE ((⌈requiredNetScore⌉ : ℤ) : ℚ))
    requiredNetPercentage := round2 (max 0 (min 100 requiredNetPercentage))
    achievable := achievable }

/- ============================================================
   chancePredictor.ts
   ============================================================ -/

/-- The `ChanceCategory` string union of chancePredictor.ts. -/
inductive ChanceCategory where
  | HighChance
  | MediumChance
  | LowChance
  | VeryLowChance
deriving DecidableEq, Repr

/-- Embeds `PredictionInput` from chancePredictor.ts (`programId` / `programName` only
feed explanation strings; `lastYearClosingPosition` is never read by
`predictChance`; all three are omitted).  JS `null` and `undefined` both become
`none`. -/
structure PredictionInput where
  userAggregate : ℚ
  lastYearClosingAggregate : Option ℚ
  averageClosingAggregate : Option ℚ
deriving DecidableEq, Repr

/-- The `metadata` record of `PredictionResult`. -/
structure PredictionMetadata where
  userAggregate : ℚ
  lastYearClosingAggregate : Option ℚ
  difference : Option ℚ
  dataAvailable : Bool
deriving DecidableEq, Repr

/-- Embeds `PredictionResult` from chancePredictor.ts (`categoryColor`,
`explanation` and `tips` strings omitted). -/
structure PredictionResult where
  chancePercentage : ℤ
  category : ChanceCategory
  metadata : PredictionMetadata
deriving DecidableEq, Repr

/-- Embeds `PREDICTION_CONFIG.THRESHOLDS` from chancePredictor.ts. -/
structure PredictionThresholds where
  HIGH_ABOVE : ℚ
  MEDIUM_HIGH_ABOVE : ℚ
  MEDIUM_BELOW : ℚ
  LOW_BELOW : ℚ
deriving DecidableEq, Repr

/-- One entry of `PREDICTION_CONFIG.CHANCE_RANGES`. -/
structure ChanceRange where
  min : ℚ
  max : ℚ
deriving DecidableEq, Repr

/-- Embeds `PREDICTION_CONFIG.CHANCE_RANGES` from chancePredictor.ts. -/
structure ChanceRanges where
  HIGH : ChanceRange
  MEDIUM_HIGH : ChanceRange
  MEDIUM : ChanceRange
  LOW : ChanceRange
  VERY_LOW : ChanceRange
deriving DecidableEq, Repr

/-- Shape of `PREDICTION_CONFIG` in chancePredictor.ts. -/
structure PredictionConfig where
  THRESHOLDS : PredictionThresholds
  CHANCE_RANGES : ChanceRanges
  SAFETY_MARGIN : ℚ
deriving DecidableEq, Repr

/-- Embeds `PREDICTION_CONFIG` from chancePredictor.ts. -/
def PREDICTION_CONFIG : PredictionConfig :=
  { THRESHOLDS :=
      { HIGH_ABOVE := 2, MEDIUM_HIGH_ABOVE := 0, MEDIUM_BELOW := -1, LOW_BELOW := -3 }
    CHANCE_RANGES :=
      { HIGH := { min := 80, max := 95 }
        MEDIUM_HIGH := { min := 60, max := 79 }
        MEDIUM := { min := 40, max := 59 }
        LOW := { min := 15, max := 39 }
        VERY_LOW := { min := 5, max := 14 } }
    SAFETY_MARGIN := 2 }

/-- Embeds `calculateChanceFromDifference` from chancePredictor.ts; `Math.round` is
`round` and `Math.min`/`Math.max` are `min`/`max`. -/
def calculateChanceFromDifference (difference : ℚ) : ChanceCategory × ℤ :=
  if difference ≥ PREDICTION_CONFIG.THRESHOLDS.HIGH_ABOVE then
    let range := PREDICTION_CONFIG.CHANCE_RANGES.HIGH
    let chancePercentage :=
      min range.max (range.min + (difference - PREDICTION_CONFIG.THRESHOLDS.HIGH_ABOVE) * 3)
    (ChanceCategory.HighChance, round chancePercentage)
  else if difference ≥ PREDICTION_CONFIG.THRESHOLDS.MEDIUM_HIGH_ABOVE then
    let range := PREDICTION_CONFIG.CHANCE_RANGES.MEDIUM_HIGH
    let factor := (difference - PREDICTION_CONFIG.THRESHOLDS.MEDIUM_HIGH_ABOVE) /
      (PREDICTION_CONFIG.THRESHOLDS.HIGH_ABOVE - PREDICTION_CONFIG.THRESHOLDS.MEDIUM_HIGH_ABOVE)
    let chancePercentage := range.min + (range.max - range.min) * factor
    (ChanceCategory.MediumChance, round chancePercentage)
  else if difference ≥ PREDICTION_CONFIG.THRESHOLDS.MEDIUM_BELOW then
    let range := PREDICTION_CONFIG.CHANCE_RANGES.MEDIUM
    let factor := (difference - PREDICTION_CONFIG.THRESHOLDS.MEDIUM_BELOW) /
      (PREDICTION_CONFIG.THRESHOLDS.MEDIUM_HIGH_ABOVE - PREDICTION_CONFIG.THRESHOLDS.MEDIUM_BELOW)
    let chancePercentage := range.min + (range.max - range.min) * factor
    (ChanceCategory.MediumChance, round chancePercentage)
  else if difference ≥ PREDICTION_CONFIG.THRESHOLDS.LOW_BELOW then
    let range := PREDICTION_CONFIG.CHANCE_RANGES.LOW
    let factor := (difference - PREDICTION_CONFIG.THRESHOLDS.LOW_BELOW) /
      (PREDICTION_CONFIG.THRESHOLDS.MEDIUM_BELOW - PREDICTION_CONFIG.THRESHOLDS.LOW_BELOW)
    let chancePercentage := range.min + (range.max - range.min) * factor
    (ChanceCategory.LowChance, round chancePercentage)
  else
    let range := PREDICTION_CONFIG.CHANCE_RANGES.VERY_LOW
    let chancePercentage :=
      max range.min (range.max + (difference - PREDICTION_CONFIG.THRESHOLDS.LOW_BELOW) * 2)
    (ChanceCategory.VeryLowChance, round chancePercentage)

/-- Embeds `createNoDataPrediction` from chancePredictor.ts (string fields omitted). -/
def createNoDataPrediction (userAggregate : ℚ) : PredictionResult :=
  { chancePercentage := 50
    category := ChanceCategory.MediumChance
    metadata :=
      { userAggregate := userAggregate
        lastYearClosingAggregate := none
        difference := none
        dataAvailable := false } }

/-- Embeds `predictChance` from chancePredictor.ts.  The JS reference resolution
`lastYearClosingAggregate ?? averageClosingAggregate ?? null` is the
`match` below. -/
def predictChance (input : PredictionInput) : PredictionResult :=
  let referenceAggregate : Option ℚ :=
    match input.lastYearClosingAggregate with
    | some c => some c
    | none => input.averageClosingAggregate
  match referenceAggregate with
  | none => createNoDataPrediction input.userAggregate
  | some referenceAggregate =>
      let difference := input.userAggregate - referenceAggregate
      let r := calculateChanceFromDifference difference
      { chancePercentage := r.2
        category := r.1
        metadata :=
          { userAggregate := input.userAggregate
            lastYearClosingAggregate := some referenceAggregate
            difference := some difference
            dataAvailable := true } }

/- ============================================================
   meritListPredictor.ts
   ============================================================ -/

/-- Embeds `MeritListThreshold` from meritListPredictor.ts. -/
structure MeritListThreshold where
  meritListNumber : ℤ
  closingAggregate : Option ℚ
  closingPosition : Option ℤ
deriving DecidableEq, Repr

/-- Embeds `MeritListPredictionInput` from meritListPredictor.ts (`programId` /
`programName` feed only explanation strings and are omitted). -/
structure MeritListPredictionInput where
  userAggregate : ℚ
  thresholds : List MeritListThreshold
deriving DecidableEq, Repr

/-- The confidence string union `High | Medium | Low`. -/
inductive Confidence where
  | High
  | Medium
  | Low
deriving DecidableEq, Repr

/-- Embeds `MeritListPredictionResult` from meritListPredictor.ts
(`confidenceColor` and `explanation` strings omitted). -/
structure MeritListPredictionResult where
  predictedList : Option ℤ
  confidence : Confidence
  alternatives : List ℤ
  isEstimate : Bool
deriving DecidableEq, Repr

/-- Embeds `MERIT_LIST_CONFIG.CONFIDENCE_THRESHOLDS` from meritListPredictor.ts. -/
structure ConfidenceThresholds where
  HIGH : ℚ
  MEDIUM : ℚ
  LOW : ℚ
deriving DecidableEq, Repr

/-- Shape of `MERIT_LIST_CONFIG` in meritListPredictor.ts. -/
structure MeritListConfig where
  MAX_LISTS : ℤ
  CONFIDENCE_THRESHOLDS : ConfidenceThresholds
  DEFAULT_AGGREGATE_DROP_PER_LIST : ℚ
deriving DecidableEq, Repr

/-- Embeds `MERIT_LIST_CONFIG` from meritListPredictor.ts. -/
def MERIT_LIST_CONFIG : MeritListConfig :=
  { MAX_LISTS := 8
    CONFIDENCE_THRESHOLDS := { HIGH := 2, MEDIUM := 0, LOW := -2 }
    DEFAULT_AGGREGATE_DROP_PER_LIST := 1.5 }

/-- Embeds `getConfidence` from meritListPredictor.ts. -/
def getConfidence (difference : ℚ) : Confidence :=
  if difference ≥ MERIT_LIST_CONFIG.CONFIDENCE_THRESHOLDS.HIGH then Confidence.High
  else if difference ≥ MERIT_LIST_CONFIG.CONFIDENCE_THRESHOLDS.MEDIUM then Confidence.Medium
  else Confidence.Low

/-- Mutable loop state of the scan in `predictMeritList`:
`closestDifference` starts at JS `Infinity`, modelled by `none`. -/
structure MeritScanState where
  predictedList : Option ℤ
  confidence : Confidence
  alternatives : List ℤ
  closestDifference : Option ℚ
deriving DecidableEq, Repr

/-- Embeds `Math.abs(difference) < closestDifference` with `closestDifference`
possibly `Infinity` (`none`). -/
def ltClosest (x : ℚ) : Option ℚ → Bool
  | none => true
  | some c => decide (x < c)

/-- One iteration of the `for (const threshold of sortedThresholds)` loop in
`predictMeritList`. -/
def meritScanStep (userAggregate : ℚ) (st : MeritScanState) (threshold : MeritListThreshold) :
    MeritScanState :=
  match threshold.closingAggregate with
  | none => st
  | some closingAggregate =>
    let difference := userAggregate - closingAggregate
    if difference ≥ 0 then
      match st.predictedList with
      | none =>
          { st with
            predictedList := some threshold.meritListNumber
            confidence := getConfidence difference
            closestDifference := some difference }
      | some prev =>
          if ltClosest |difference| st.closestDifference then
            { predictedList := some threshold.meritListNumber
              confidence := getConfidence difference
              alternatives := st.alternatives ++ [prev]
              closestDifference := some difference }
          else
            { st with alternatives := st.alternatives ++ [threshold.meritListNumber] }
    else if st.predictedList = none ∧ |difference| < 3 then
      { st with alternatives := st.alternatives ++ [threshold.meritListNumber] }
    else
      st

/-- Embeds `createNoDataPrediction` of meritListPredictor.ts (the merit-list one):
the coarse aggregate-bucket estimate used when no thresholds exist. -/
def createNoDataMeritPrediction (userAggregate : ℚ) : MeritListPredictionResult :=
  let estimatedList : Option ℤ :=
    if userAggregate ≥ 80 then some 1
    else if userAggregate ≥ 75 then some 2
    else if userAggregate ≥ 70 then some 4
    else if userAggregate ≥ 65 then some 6
    else none
  { predictedList := estimatedList
    confidence := Confidence.Low
    alternatives :=
      match estimatedList with
      | some n => [n + 1, n + 2].filter (fun m => m ≤ 8)
      | none => []
    isEstimate := true }

/-- Embeds `predictMeritList` from meritListPredictor.ts.  The JS in-place stable
sort by `meritListNumber` is `List.insertionSort` (Mathlib's insertion sort
is stable), and the loop is a `foldl` of `meritScanStep`. -/
def predictMeritList (input : MeritListPredictionInput) : MeritListPredictionResult :=
  if input.thresholds.length = 0 then
    createNoDataMeritPrediction input.userAggregate
  else
    let sortedThresholds :=
      input.thresholds.insertionSort (fun a b => a.meritListNumber ≤ b.meritListNumber)
    let final := sortedThresholds.foldl (meritScanStep input.userAggregate)
      { predictedList := none, confidence := Confidence.Low, alternatives := [],
        closestDifference := none }
    { predictedList := final.predictedList
      confidence := final.confidence
      alternatives := final.alternatives.take 2
      isEstimate := false }

/-- Embeds `generateEstimatedThresholds` from meritListPredictor.ts (defaults
`baseAggregate = 78`, `numLists = 8` are passed explicitly at call sites). -/
def generateEstimatedThresholds (baseAggregate : ℚ) (numLists : ℕ) :
    List MeritListThreshold :=
  (List.range numLists).map fun i =>
    { meritListNumber := (i : ℤ) + 1
      closingAggregate :=
        some (max 50 (baseAggregate -
          (i : ℚ) * MERIT_LIST_CONFIG.DEFAULT_AGGREGATE_DROP_PER_LIST))
      closingPosition := none }

/- ============================================================
   netScoreRecommender.ts
   ============================================================ -/

/-- Embeds `NetScoreRecommendationInput` from netScoreRecommender.ts
(`programName` feeds only explanation strings and is omitted). -/
structure NetScoreRecommendationInput where
  lastYearClosingAggregate : ℚ
  hscPercentage : ℚ
  sscPercentage : ℚ
  useEquivalence : Bool
  equivalencePercentage : Option ℚ
deriving DecidableEq, Repr

/-- The achievability string union of netScoreRecommender.ts. -/
inductive Achievability where
  | Easy
  | Moderate
  | Challenging
  | VeryChallenging
  | NotAchievable
deriving DecidableEq, Repr

/-- Embeds `NetScoreScenario` from netScoreRecommender.ts (the `description` string
is omitted; `chanceCategory` is a plain string in the source and is kept as
such). -/
structure NetScoreScenarioRow where
  netScore : ℚ
  resultingAggregate : ℚ
  chanceCategory : String
deriving DecidableEq, Repr

/-- Embeds `NetScoreRecommendation` from netScoreRecommender.ts
(`achievabilityColor` and `explanation` strings omitted). -/
structure NetScoreRecommendation where
  minimumNetScore : ℚ
  recommendedNetScore : ℚ
  targetNetScore : ℚ
  maxNetScore : ℚ
  achievability : Achievability
  scenarios : List NetScoreScenarioRow
deriving DecidableEq, Repr

/-- Embeds `NET_RECOMMENDER_CONFIG.MARGINS` from netScoreRecommender.ts. -/
structure RecommenderMargins where
  MINIMUM : ℚ
  RECOMMENDED : ℚ
  TARGET : ℚ
deriving DecidableEq, Repr

/-- Embeds `NET_RECOMMENDER_CONFIG.ACHIEVABILITY` from netScoreRecommender.ts. -/
structure AchievabilityThresholds where
  EASY : ℚ
  MODERATE : ℚ
  CHALLENGING : ℚ
  VERY_CHALLENGING : ℚ
deriving DecidableEq, Repr

/-- Shape of `NET_RECOMMENDER_CONFIG` in netScoreRecommender.ts. -/
structure NetRecommenderConfig where
  MARGINS : RecommenderMargins
  ACHIEVABILITY : AchievabilityThresholds
deriving DecidableEq, Repr

/-- Embeds `NET_RECOMMENDER_CONFIG` from netScoreRecommender.ts. -/
def NET_RECOMMENDER_CONFIG : NetRecommenderConfig :=
  { MARGINS := { MINIMUM := -1, RECOMMENDED := 1, TARGET := 3 }
    ACHIEVABILITY :=
      { EASY := 120, MODERATE := 150, CHALLENGING := 175, VERY_CHALLENGING := 190 } }

/-- Embeds `getAchievability` from netScoreRecommender.ts. -/
def getAchievability (requiredScore : ℚ) : Achievability :=
  if requiredScore > AGGREGATE_CONFIG.MAX_NET_SCORE then Achievability.NotAchievable
  else if requiredScore ≤ NET_RECOMMENDER_CONFIG.ACHIEVABILITY.EASY then Achievability.Easy
  else if requiredScore ≤ NET_RECOMMENDER_CONFIG.ACHIEVABILITY.MODERATE then
    Achievability.Moderate
  else if requiredScore ≤ NET_RECOMMENDER_CONFIG.ACHIEVABILITY.CHALLENGING then
    Achievability.Challenging
  else if requiredScore ≤ NET_RECOMMENDER_CONFIG.ACHIEVABILITY.VERY_CHALLENGING then
    Achievability.VeryChallenging
  else Achievability.VeryChallenging

/-- The value of the JS property access `AGGREGATE_CONFIG.WEIGHTS` performed by
the destructuring `const { MAX_NET_SCORE, WEIGHTS } = AGGREGATE_CONFIG` in
`generateScenarios` of netScoreRecommender.ts.  `AGGREGATE_CONFIG` (see
calcAggregate.ts above) declares only `WEIGHTS_FSC` and `WEIGHTS_OA_LEVEL`;
the `WEIGHTS` key is absent, so the access yields JS `undefined`, modelled as
`none`. -/
def AGGREGATE_CONFIG_WEIGHTS : Option FscWeights := none

/-- Embeds `arr.filter((score, index, arr) => arr.indexOf(score) === index)` in
`generateScenarios`: keep the first occurrence of each value. -/
def dedupKeepFirst (l : List ℚ) (seen : List ℚ) : List ℚ :=
  match l with
  | [] => []
  | a :: rest =>
      if a ∈ seen then dedupKeepFirst rest seen
      else a :: dedupKeepFirst rest (a :: seen)

/-- Embeds `generateScenarios` from netScoreRecommender.ts.  Reading property `NET`
of the `undefined` value `AGGREGATE_CONFIG_WEIGHTS` throws a `TypeError` at
run time, modelled as `Except.error`; the `some` branch is the loop the source
intends to run but never reaches. -/
def generateScenarios (hscPercentage sscPercentage closingAggregate recommendedScore : ℚ) :
    Except String (List NetScoreScenarioRow) :=
  match AGGREGATE_CONFIG_WEIGHTS with
  | none => Except.error "TypeError: cannot read properties of undefined (reading NET)"
  | some WEIGHTS =>
      let MAX_NET_SCORE := AGGREGATE_CONFIG.MAX_NET_SCORE
      let scorePoints := dedupKeepFirst
        [max 80 (recommendedScore - 30),
         max 100 (recommendedScore - 15),
         recommendedScore,
         min MAX_NET_SCORE (recommendedScore + 15),
         min MAX_NET_SCORE (recommendedScore + 30)] []
      Except.ok <| scorePoints.map fun netScore =>
        let netPercentage := netScore / MAX_NET_SCORE * 100
        let aggregate := netPercentage * WEIGHTS.NET + hscPercentage * WEIGHTS.HSC +
          sscPercentage * WEIGHTS.SSC
        let diff := aggregate - closingAggregate
        let chanceCategory : String :=
          if diff ≥ 2 then "High Chance"
          else if diff ≥ 0 then "Medium Chance"
          else if diff ≥ -2 then "Low Chance"
          else "Very Low Chance"
        { netScore := netScore
          resultingAggregate := round2 aggregate
          chanceCategory := chanceCategory }

/-- Embeds `getNetScoreRecommendation` from netScoreRecommender.ts.  The result is an
`Except` because `generateScenarios` (called unconditionally) throws. -/
def getNetScoreRecommendation (input : NetScoreRecommendationInput) :
    Except String NetScoreRecommendation :=
  let effectiveHsc :=
    match input.useEquivalence, input.equivalencePercentage with
    | true, some equivalencePercentage => equivalencePercentage
    | _, _ => input.hscPercentage
  let minimumTarget :=
    input.lastYearClosingAggregate + NET_RECOMMENDER_CONFIG.MARGINS.MINIMUM
  let recommendedTarget :=
    input.lastYearClosingAggregate + NET_RECOMMENDER_CONFIG.MARGINS.RECOMMENDED
  let highTarget :=
    input.lastYearClosingAggregate + NET_RECOMMENDER_CONFIG.MARGINS.TARGET
  let minimumResult :=
    calculateRequiredNetScore minimumTarget effectiveHsc input.sscPercentage false none
  let recommendedResult :=
    calculateRequiredNetScore recommendedTarget effectiveHsc input.sscPercentage false none
  let targetResult :=
    calculateRequiredNetScore highTarget effectiveHsc input.sscPercentage false none
  let achievability := getAchievability recommendedResult.requiredNetScore
  match generateScenarios effectiveHsc input.sscPercentage input.lastYearClosingAggregate
    recommendedResult.requiredNetScore with
  | Except.error e => Except.error e
  | Except.ok scenarioRows =>
      Except.ok
        { minimumNetScore := minimumResult.requiredNetScore
          recommendedNetScore := recommendedResult.requiredNetScore
          targetNetScore := targetResult.requiredNetScore
          maxNetScore := AGGREGATE_CONFIG.MAX_NET_SCORE
          achievability := achievability
          scenarios := scenarioRows }

/- ============================================================
   preferenceGenerator.ts
   ============================================================ -/

/-- The `RiskCategory` string union of preferenceGenerator.ts. -/
inductive RiskCategory where
  | Safe
  | Moderate
  | Ambitious
deriving DecidableEq, Repr

/-- The risk-tolerance string union of preferenceGenerator.ts. -/
inductive RiskTolerance where
  | Conservative
  | Moderate
  | Aggressive
deriving DecidableEq, Repr

/-- Embeds `ProgramOption` from preferenceGenerator.ts. -/
structure ProgramOption where
  programId : String
  programName : String
  campus : String
  school : String
  disciplineGroup : String
  lastYearClosingAggregate : Option ℚ
  seats : Option ℤ
deriving DecidableEq, Repr

/-- Embeds `UserInterests` from preferenceGenerator.ts; the
`Record<string, number>` of discipline scores is an association list. -/
structure UserInterests where
  disciplineScores : List (String × ℚ)
  preferredCampuses : List String
  riskTolerance : RiskTolerance
deriving DecidableEq, Repr

/-- Embeds `PreferenceItem` from preferenceGenerator.ts (`riskColor` and `reasoning`
strings omitted). -/
structure PreferenceItem where
  rank : ℕ
  program : ProgramOption
  riskCategory : RiskCategory
  chancePercentage : ℤ
  predictedMeritList : Option ℤ
  interestScore : ℚ
  overallScore : ℚ
deriving DecidableEq, Repr

/-- The `byRisk` grouping of `PreferenceListResult`. -/
structure ByRisk where
  safe : List PreferenceItem
  moderate : List PreferenceItem
  ambitious : List PreferenceItem
deriving DecidableEq, Repr

/-- The `summary` record of `PreferenceListResult`. -/
structure PreferenceSummary where
  totalPrograms : ℕ
  safeCount : ℕ
  moderateCount : ℕ
  ambitiousCount : ℕ
  averageChance : ℚ
deriving DecidableEq, Repr

/-- Embeds `PreferenceListResult` from preferenceGenerator.ts. -/
structure PreferenceListResult where
  rankedList : List PreferenceItem
  byRisk : ByRisk
  summary : PreferenceSummary
  recommendations : List String
deriving DecidableEq, Repr

/-- Embeds `PREFERENCE_CONFIG.RISK_THRESHOLDS` from preferenceGenerator.ts. -/
structure RiskThresholds where
  SAFE : ℤ
  MODERATE : ℤ
deriving DecidableEq, Repr

/-- Embeds `PREFERENCE_CONFIG.SCORING_WEIGHTS` from preferenceGenerator.ts. -/
structure ScoringWeights where
  CHANCE : ℚ
  INTEREST : ℚ
  CAMPUS_PREF : ℚ
  MERIT_LIST : ℚ
deriving DecidableEq, Repr

/-- One row of `PREFERENCE_CONFIG.RECOMMENDED_MIX`. -/
structure RiskMix where
  safe : ℚ
  moderate : ℚ
  ambitious : ℚ
deriving DecidableEq, Repr

/-- Shape of `PREFERENCE_CONFIG` in preferenceGenerator.ts. -/
structure PreferenceConfig where
  RISK_THRESHOLDS : RiskThresholds
  SCORING_WEIGHTS : ScoringWeights
  MIX_Conservative : RiskMix
  MIX_Moderate : RiskMix
  MIX_Aggressive : RiskMix
deriving DecidableEq, Repr

/-- Embeds `PREFERENCE_CONFIG` from preferenceGenerator.ts (the `RECOMMENDED_MIX`
record is flattened into one field per risk tolerance). -/
def PREFERENCE_CONFIG : PreferenceConfig :=
  { RISK_THRESHOLDS := { SAFE := 70, MODERATE := 40 }
    SCORING_WEIGHTS :=
      { CHANCE := 0.4, INTEREST := 0.35, CAMPUS_PREF := 0.15, MERIT_LIST := 0.10 }
    MIX_Conservative := { safe := 0.6, moderate := 0.3, ambitious := 0.1 }
    MIX_Moderate := { safe := 0.4, moderate := 0.4, ambitious := 0.2 }
    MIX_Aggressive := { safe := 0.2, moderate := 0.4, ambitious := 0.4 } }

/-- Embeds `PREFERENCE_CONFIG.RECOMMENDED_MIX[riskTolerance]`. -/
def recommendedMix : RiskTolerance → RiskMix
  | RiskTolerance.Conservative => PREFERENCE_CONFIG.MIX_Conservative
  | RiskTolerance.Moderate => PREFERENCE_CONFIG.MIX_Moderate
  | RiskTolerance.Aggressive => PREFERENCE_CONFIG.MIX_Aggressive

/-- Embeds `getInterestScore` from preferenceGenerator.ts.  JS
`disciplineScores[group] || 3` treats both a missing key and a stored `0` as
falsy, yielding the neutral default 3. -/
def getInterestScore (program : ProgramOption) (interests : UserInterests) : ℚ :=
  let disciplineScore : ℚ :=
    match interests.disciplineScores.lookup program.disciplineGroup with
    | some v => if v = 0 then 3 else v
    | none => 3
  disciplineScore / 5 * 100

/-- Embeds `getCampusPreferenceScore` from preferenceGenerator.ts; `indexOf`
returning `-1` is the `none` branch. -/
def getCampusPreferenceScore (campus : String) (preferredCampuses : List String) : ℚ :=
  match preferredCampuses.findIdx? (fun c => c == campus) with
  | none => 50
  | some index => max 10 (100 - (index : ℚ) * 15)

/-- Embeds `getMeritListScore` from preferenceGenerator.ts. -/
def getMeritListScore (predictedList : Option ℤ) : ℚ :=
  match predictedList with
  | none => 20
  | some n => max 10 (100 - ((n : ℚ) - 1) * 12)

/-- Embeds `calculateOverallScore` from preferenceGenerator.ts. -/
def calculateOverallScore (chancePercentage interestScore campusScore meritListScore : ℚ) : ℚ :=
  chancePercentage * PREFERENCE_CONFIG.SCORING_WEIGHTS.CHANCE +
    interestScore * PREFERENCE_CONFIG.SCORING_WEIGHTS.INTEREST +
    campusScore * PREFERENCE_CONFIG.SCORING_WEIGHTS.CAMPUS_PREF +
    meritListScore * PREFERENCE_CONFIG.SCORING_WEIGHTS.MERIT_LIST

/-- Embeds `getRiskCategory` from preferenceGenerator.ts. -/
def getRiskCategory (chancePercentage : ℤ) : RiskCategory :=
  if chancePercentage ≥ PREFERENCE_CONFIG.RISK_THRESHOLDS.SAFE then RiskCategory.Safe
  else if chancePercentage ≥ PREFERENCE_CONFIG.RISK_THRESHOLDS.MODERATE then
    RiskCategory.Moderate
  else RiskCategory.Ambitious

/-- The body of `programs.map((program, index) => {...})` in
`generatePreferenceList` (the `index` parameter is unused by the source).
`rank` is 0 before sorting, as in the source.  The threshold ladder guard is
the JS truthiness test `program.lastYearClosingAggregate ? ... : []`, which
also treats a stored 0 as absent. -/
def scoreProgram (userAggregate : ℚ) (interests : UserInterests)
    (program : ProgramOption) : PreferenceItem :=
  let chancePrediction := predictChance
    { userAggregate := userAggregate
      lastYearClosingAggregate := program.lastYearClosingAggregate
      averageClosingAggregate := none }
  let thresholds :=
    match program.lastYearClosingAggregate with
    | some c => if c = 0 then [] else generateEstimatedThresholds c 8
    | none => []
  let meritListPrediction := predictMeritList
    { userAggregate := userAggregate, thresholds := thresholds }
  let interestScore := getInterestScore program interests
  let campusScore := getCampusPreferenceScore program.campus interests.preferredCampuses
  let meritListScore := getMeritListScore meritListPrediction.predictedList
  let overallScore := calculateOverallScore (chancePrediction.chancePercentage : ℚ)
    interestScore campusScore meritListScore
  let riskCategory := getRiskCategory chancePrediction.chancePercentage
  { rank := 0
    program := program
    riskCategory := riskCategory
    chancePercentage := chancePrediction.chancePercentage
    predictedMeritList := meritListPrediction.predictedList
    interestScore := interestScore
    overallScore := overallScore }

/-- Embeds `scoredPrograms.forEach((item, index) => item.rank = index + 1)`:
assign 1-based ranks in list order, starting at `n`. -/
def assignRanks (n : ℕ) : List PreferenceItem → List PreferenceItem
  | [] => []
  | item :: rest => { item with rank := n } :: assignRanks (n + 1) rest

/-- Embeds `generateRecommendations` from preferenceGenerator.ts. -/
def generateRecommendations (summary : PreferenceSummary)
    (riskTolerance : RiskTolerance) : List String :=
  let recommended := recommendedMix riskTolerance
  let safeFrac : ℚ := (summary.safeCount : ℚ) / (summary.totalPrograms : ℚ)
  let ambitiousFrac : ℚ := (summary.ambitiousCount : ℚ) / (summary.totalPrograms : ℚ)
  let recommendations : List String :=
    (if safeFrac < recommended.safe - 0.1 then
      ["Consider adding more safe options to your list for better security."] else []) ++
    (if summary.safeCount = 0 then
      ["⚠️ You have no safe options. Strongly consider adding programs with high admission chances."]
     else []) ++
    (if ambitiousFrac > recommended.ambitious + 0.2 then
      ["Your list is heavy on ambitious choices. This is risky - ensure you have backups."]
     else []) ++
    (if summary.totalPrograms < 5 then
      ["Consider adding more program options to increase your chances of admission."] else []) ++
    (if summary.totalPrograms > 15 then
      ["You have many options selected. Focus on your top 10-12 preferences."] else [])
  if recommendations.length = 0 then
    ["Your preference list has a good balance of safe, moderate, and ambitious choices."]
  else recommendations

/-- Embeds `createEmptyResult` from preferenceGenerator.ts. -/
def createEmptyResult : PreferenceListResult :=
  { rankedList := []
    byRisk := { safe := [], moderate := [], ambitious := [] }
    summary :=
      { totalPrograms := 0, safeCount := 0, moderateCount := 0, ambitiousCount := 0,
        averageChance := 0 }
    recommendations := ["Please select some programs to generate a preference list."] }

/-- Embeds `generatePreferenceList` from preferenceGenerator.ts.  The in-place stable
JS sort `(a, b) => b.overallScore - a.overallScore` is `List.insertionSort`
with the non-strict comparison `b.overallScore ≤ a.overallScore`. -/
def generatePreferenceList (userAggregate : ℚ) (programs : List ProgramOption)
    (interests : UserInterests) : PreferenceListResult :=
  if programs.length = 0 then
    createEmptyResult
  else
    let scoredPrograms := programs.map (scoreProgram userAggregate interests)
    let sortedPrograms :=
      scoredPrograms.insertionSort (fun a b => b.overallScore ≤ a.overallScore)
    let rankedList := assignRanks 1 sortedPrograms
    let byRisk : ByRisk :=
      { safe := rankedList.filter (fun p => p.riskCategory == RiskCategory.Safe)
        moderate := rankedList.filter (fun p => p.riskCategory == RiskCategory.Moderate)
        ambitious := rankedList.filter (fun p => p.riskCategory == RiskCategory.Ambitious) }
    let summary : PreferenceSummary :=
      { totalPrograms := rankedList.length
        safeCount := byRisk.safe.length
        moderateCount := byRisk.moderate.length
        ambitiousCount := byRisk.ambitious.length
        averageChance :=
          ((rankedList.map (fun p => p.chancePercentage)).sum : ℚ) / (rankedList.length : ℚ) }
    let recommendations := generateRecommendations summary interests.riskTolerance
    { rankedList := rankedList
      byRisk := byRisk
      summary := summary
      recommendations := recommendations }

/- ============================================================
   Auxiliary definitions for the statements
   ============================================================ -/

/-- The five-band piecewise map as the specification words it (C4): used to
compare `calculateChanceFromDifference` against the spec sentence.  First
component is the rounded chance, second the category. -/
def specChanceBands (diff : ℚ) : ℤ × ChanceCategory :=
  if diff ≥ 2 then
    (round (min 95 (80 + 3 * (diff - 2))), ChanceCategory.HighChance)
  else if 0 ≤ diff then
    (round (60 + 19 * diff / 2), ChanceCategory.MediumChance)
  else if -1 ≤ diff then
    (round (40 + 19 * (diff + 1)), ChanceCategory.MediumChance)
  else if -3 ≤ diff then
    (round (15 + 12 * (diff + 3)), ChanceCategory.LowChance)
  else
    (round (max 5 (14 + 2 * (diff + 3))), ChanceCategory.VeryLowChance)

/-- Forget the (mutable) `rank` field of a `PreferenceItem`; used to relate
the ranked output list to the pre-ranking sorted list. -/
def stripRank (p : PreferenceItem) : PreferenceItem := { p with rank := 0 }

/-- The concrete valid FSc input of the spec scenario: NET 150 of 200,
HSC 85%, SSC 90%. -/
def sampleFscInput : AggregateInput :=
  { netScore := 150, hscPercentage := 85, sscPercentage := 90,
    useEquivalence := false, equivalencePercentage := none }

/-- A concrete one-program candidate list used to witness the preference
generator properties. -/
def samplePrograms : List ProgramOption :=
  [{ programId := "p1", programName := "Computer Science", campus := "H-12",
     school := "SEECS", disciplineGroup := "Computing",
     lastYearClosingAggregate := some 75, seats := none }]

/-- Concrete neutral user interests for the preference-generator witness. -/
def sampleInterests : UserInterests :=
  { disciplineScores := [], preferredCampuses := [],
    riskTolerance := RiskTolerance.Moderate }

/-- The concrete merit-list scenario of the spec: rounds 1-3 closing at
80, 77 and 74, user aggregate 76. -/
def sampleMeritInput : MeritListPredictionInput :=
  { userAggregate := 76
    thresholds :=
      [{ meritListNumber := 1, closingAggregate := some 80, closingPosition := none },
       { meritListNumber := 2, closingAggregate := some 77, closingPosition := none },
       { meritListNumber := 3, closingAggregate := some 74, closingPosition := none }] }

instance : IsTrans PreferenceItem (fun a b => b.overallScore ≤ a.overallScore) :=
  ⟨fun _ _ _ hab hbc => le_trans hbc hab⟩

instance : IsTotal PreferenceItem (fun a b => b.overallScore ≤ a.overallScore) :=
  ⟨fun a b => le_total b.overallScore a.overallScore⟩

/- ============================================================
   Rounding helper lemmas
   ============================================================ -/

theorem round_mono_rat {x y : ℚ} (h : x ≤ y) : round x ≤ round y := by
  rw [round_eq, round_eq]
  exact Int.floor_le_floor (by linarith)

theorem round2_gt (x : ℚ) : x - 1 / 200 < round2 x := by
  unfold round2
  rw [round_eq]
  have h := Int.sub_one_lt_floor (100 * x + 1 / 2)
  have h2 : ((⌊100 * x + 1 / 2⌋ : ℤ) : ℚ) > 100 * x - 1 / 2 := by linarith
  linarith

theorem round2_le (x : ℚ) : round2 x ≤ x + 1 / 200 := by
  unfold round2
  rw [round_eq]
  have h := Int.floor_le (100 * x + 1 / 2)
  linarith

theorem round2_nonneg {x : ℚ} (h : 0 ≤ x) : 0 ≤ round2 x := by
  unfold round2
  have h1 : round (0 : ℚ) ≤ round (100 * x) := round_mono_rat (by linarith)
  rw [round_zero] at h1
  have h2 : (0 : ℚ) ≤ ((round (100 * x) : ℤ) : ℚ) := by exact_mod_cast h1
  linarith

theorem round2_le_100 {x : ℚ} (h : x ≤ 100) : round2 x ≤ 100 := by
  unfold round2
  have h1 : round (100 * x) ≤ round ((10000 : ℤ) : ℚ) := round_mono_rat (by push_cast; linarith)
  rw [round_intCast] at h1
  have h2 : ((round (100 * x) : ℤ) : ℚ) ≤ 10000 := by exact_mod_cast h1
  linarith

/- ============================================================
   C1
   ============================================================ -/

/-- C1: the claim says every core operation is total and that
`getNetScoreRecommendation` returns a well-defined recommendation record with
its scenario rows for every valid input.  On the code this is false:
`generateScenarios` destructures the non-existent `WEIGHTS` key out of
`AGGREGATE_CONFIG`, so reading `WEIGHTS.NET` raises a `TypeError` and
`getNetScoreRecommendation` fails on every input, in particular on the valid
input (closing 75, hsc 85, ssc 90). -/
theorem getNetScoreRecommendation_always_throws :
    (∀ input : NetScoreRecommendationInput,
      getNetScoreRecommendation input =
        Except.error "TypeError: cannot read properties of undefined (reading NET)") ∧
    getNetScoreRecommendation
      { lastYearClosingAggregate := 75, hscPercentage := 85, sscPercentage := 90,
        useEquivalence := false, equivalencePercentage := none } =
      Except.error "TypeError: cannot read properties of undefined (reading NET)" :=
  ⟨fun _ => rfl, rfl⟩

/- ============================================================
   C8
   ============================================================ -/

/-- C8: missing reference data is a soft fallback, never an error:
`predictChance` without any reference returns the neutral 50 / Medium result
with `dataAvailable = false`; `predictMeritList` with an empty threshold list
returns the coarse aggregate-bucket estimate with `isEstimate = true`; and
`generatePreferenceList` with an empty candidate list returns the empty
placeholder result with the advisory recommendation string. -/
theorem missing_data_soft_fallbacks (u : ℚ) (interests : UserInterests) :
    ((predictChance
        { userAggregate := u, lastYearClosingAggregate := none,
          averageClosingAggregate := none }).chancePercentage = 50 ∧
     (predictChance
        { userAggregate := u, lastYearClosingAggregate := none,
          averageClosingAggregate := none }).category = ChanceCategory.MediumChance ∧
     (predictChance
        { userAggregate := u, lastYearClosingAggregate := none,
          averageClosingAggregate := none }).metadata.dataAvailable = false) ∧
    (predictMeritList { userAggregate := u, thresholds := [] } =
        createNoDataMeritPrediction u ∧
     (predictMeritList { userAggregate := u, thresholds := [] }).isEstimate = true) ∧
    (generatePreferenceList u [] interests = createEmptyResult ∧
     (generatePreferenceList u [] interests).rankedList = [] ∧
     (generatePreferenceList u [] interests).summary.totalPrograms = 0 ∧
     (generatePreferenceList u [] interests).recommendations =
       ["Please select some programs to generate a preference list."]) :=
  ⟨⟨rfl, rfl, rfl⟩, ⟨rfl, rfl⟩, ⟨rfl, rfl, rfl, rfl⟩⟩

/- ============================================================
   C9
   ============================================================ -/

/-- C9: with `useEquivalence = true` but `equivalencePercentage` absent,
`calculateAggregate` silently falls through to the FSc formula: it returns
`isOALevel = false`, weights `hscPercentage` and `sscPercentage` at 0.15 and
0.10, and does not check the one-variant-populated invariant at all. -/
theorem calculateAggregate_missing_equivalence_falls_back (netScore hsc ssc : ℚ) :
    calculateAggregate
      { netScore := netScore, hscPercentage := hsc, sscPercentage := ssc,
        useEquivalence := true, equivalencePercentage := none } =
      { netContribution := round2 (netScore / 200 * 100 * 0.75)
        hscContribution := round2 (hsc * 0.15)
        sscContribution := round2 (ssc * 0.10)
        equivalenceContribution := none
        totalAggregate := round2 (netScore / 200 * 100 * 0.75 + hsc * 0.15 + ssc * 0.10)
        isOALevel := false } := rfl

/- ============================================================
   C10
   ============================================================ -/

/-- C10: `predictChance` resolves its reference in two stages: it uses
`lastYearClosingAggregate` when present (whatever the average is), falls back
to `averageClosingAggregate` otherwise, and only when both are absent does it
return the neutral 50 / Medium no-data result. -/
theorem predictChance_reference_resolution (u c : ℚ) (avg : Option ℚ) :
    ((predictChance
        { userAggregate := u, lastYearClosingAggregate := some c,
          averageClosingAggregate := avg }).metadata =
      { userAggregate := u, lastYearClosingAggregate := some c,
        difference := some (u - c), dataAvailable := true }) ∧
    ((predictChance
        { userAggregate := u, lastYearClosingAggregate := none,
          averageClosingAggregate := some c }).metadata =
      { userAggregate := u, lastYearClosingAggregate := some c,
        difference := some (u - c), dataAvailable := true }) ∧
    (predictChance
        { userAggregate := u, lastYearClosingAggregate := none,
          averageClosingAggregate := none } =
      { chancePercentage := 50, category := ChanceCategory.MediumChance,
        metadata :=
          { userAggregate := u, lastYearClosingAggregate := none,
            difference := none, dataAvailable := false } }) :=
  ⟨rfl, rfl, rfl⟩

/- ============================================================
   C4
   ============================================================ -/

theorem calculateChanceFromDifference_eq_spec (d : ℚ) :
    calculateChanceFromDifference d = ((specChanceBands d).2, (specChanceBands d).1) := by
  unfold calculateChanceFromDifference specChanceBands PREDICTION_CONFIG
  dsimp only
  split_ifs <;>
    first
      | rfl
      | (exfalso; linarith)
      | ((simp only [Prod.mk.injEq, true_and]) <;>
          first
            | (congr 1; ring)
            | (congr 2; ring))

/-- C4: with a present reference closing aggregate, `predictChance` computes
`diff = userAggregate - reference` and returns exactly the rounded value and
category of the five-band piecewise map stated by the spec (`specChanceBands`);
in particular user 78.00 against reference 75.00 gives 83 and High Chance. -/
theorem predictChance_five_bands (u r : ℚ) (avg : Option ℚ) :
    ((predictChance
        { userAggregate := u, lastYearClosingAggregate := some r,
          averageClosingAggregate := avg }).chancePercentage =
        (specChanceBands (u - r)).1 ∧
     (predictChance
        { userAggregate := u, lastYearClosingAggregate := some r,
          averageClosingAggregate := avg }).category = (specChanceBands (u - r)).2) ∧
    ((predictChance
        { userAggregate := 78, lastYearClosingAggregate := some 75,
          averageClosingAggregate := none }).chancePercentage = 83 ∧
     (predictChance
        { userAggregate := 78, lastYearClosingAggregate := some 75,
          averageClosingAggregate := none }).category = ChanceCategory.HighChance) := by
  refine ⟨⟨?_, ?_⟩, ?_, ?_⟩
  · show (calculateChanceFromDifference (u - r)).2 = (specChanceBands (u - r)).1
    rw [calculateChanceFromDifference_eq_spec]
  · show (calculateChanceFromDifference (u - r)).1 = (specChanceBands (u - r)).2
    rw [calculateChanceFromDifference_eq_spec]
  · with_unfolding_all decide
  · with_unfolding_all decide

/- ============================================================
   C6
   ============================================================ -/

theorem chanceFromDifference_mono {d1 d2 : ℚ} (h : d1 ≤ d2) :
    (calculateChanceFromDifference d1).2 ≤ (calculateChanceFromDifference d2).2 := by
  unfold calculateChanceFromDifference PREDICTION_CONFIG
  dsimp only
  split_ifs <;>
    exact round_mono_rat
      (by first
            | linarith
            | (simp only [min_def, max_def]; split_ifs <;> linarith))

/-- C6: for a fixed present reference closing aggregate, the chance returned
by `predictChance` is monotone in the user aggregate: `u1 ≤ u2` implies the
chance at `u1` is at most the chance at `u2`, across rounding and all band
boundaries. -/
theorem predictChance_monotone (r : ℚ) (avg : Option ℚ) (u1 u2 : ℚ) (h : u1 ≤ u2) :
    (predictChance
        { userAggregate := u1, lastYearClosingAggregate := some r,
          averageClosingAggregate := avg }).chancePercentage ≤
      (predictChance
        { userAggregate := u2, lastYearClosingAggregate := some r,
          averageClosingAggregate := avg }).chancePercentage := by
  show (calculateChanceFromDifference (u1 - r)).2 ≤ (calculateChanceFromDifference (u2 - r)).2
  exact chanceFromDifference_mono (by linarith)

/-- Witness for C6 at reference 75 and user aggregates 70 ≤ 80. -/
theorem predictChance_monotone_witness :
    (70 : ℚ) ≤ 80 ∧
    (predictChance
        { userAggregate := 70, lastYearClosingAggregate := some 75,
          averageClosingAggregate := none }).chancePercentage ≤
      (predictChance
        { userAggregate := 80, lastYearClosingAggregate := some 75,
          averageClosingAggregate := none }).chancePercentage :=
  ⟨by norm_num, predictChance_monotone 75 none 70 80 (by norm_num)⟩

/- ============================================================
   C2
   ============================================================ -/

theorem validateAggregateInput_valid {input : AggregateInput}
    (hv : (validateAggregateInput input).isValid = true) :
    0 ≤ input.netScore ∧ input.netScore ≤ 200 ∧
      ((input.useEquivalence = true →
          ∃ e, input.equivalencePercentage = some e ∧ 0 ≤ e ∧ e ≤ 100) ∧
       (input.useEquivalence = false →
          0 ≤ input.hscPercentage ∧ input.hscPercentage ≤ 100 ∧
          0 ≤ input.sscPercentage ∧ input.sscPercentage ≤ 100)) := by
  obtain ⟨n, hsc, ssc, useEq, eqPct⟩ := input
  simp only [validateAggregateInput, AGGREGATE_CONFIG] at hv
  cases useEq <;> cases eqPct <;>
    (try simp only [beq_iff_eq, List.length_append, List.append_eq_nil,
      List.length_eq_zero] at hv) <;>
    (try split_ifs at hv) <;>
    simp_all [not_lt] <;>
    and_intros <;>
    linarith

/-- C2: for every input accepted by the validation precondition,
`calculateAggregate` computes `totalAggregate` as the variant formula rounded
to two decimals — `netPct * 0.75 + equivalencePct * 0.25` when the
equivalence variant applies, `netPct * 0.75 + hscPct * 0.15 + sscPct * 0.10`
otherwise, with `netPct = netScore / 200 * 100` — so the unrounded
contributions sum to the unrounded total before the single final rounding;
the rounded total lies in `[0, 100]`; and the concrete scenario
NET 150 / HSC 85 / SSC 90 yields contributions 56.25, 12.75, 9.00 and total
78.00. -/
theorem calculateAggregate_formula (input : AggregateInput)
    (hv : (validateAggregateInput input).isValid = true) :
    ((∃ e, input.useEquivalence = true ∧ input.equivalencePercentage = some e ∧
        (calculateAggregate input).totalAggregate =
          round2 (input.netScore / 200 * 100 * 0.75 + e * 0.25)) ∨
      ((input.useEquivalence = false ∨ input.equivalencePercentage = none) ∧
        (calculateAggregate input).totalAggregate =
          round2 (input.netScore / 200 * 100 * 0.75 +
            input.hscPercentage * 0.15 + input.sscPercentage * 0.10))) ∧
    0 ≤ (calculateAggregate input).totalAggregate ∧
    (calculateAggregate input).totalAggregate ≤ 100 ∧
    calculateAggregate
      { netScore := 150, hscPercentage := 85, sscPercentage := 90,
        useEquivalence := false, equivalencePercentage := none } =
      { netContribution := 56.25, hscContribution := 12.75, sscContribution := 9,
        equivalenceContribution := none, totalAggregate := 78, isOALevel := false } := by
  obtain ⟨n, hsc, ssc, useEq, eqPct⟩ := input
  obtain ⟨hn0, hn200, hEq, hFsc⟩ := validateAggregateInput_valid hv
  refine ⟨?_, ?_, ?_, by with_unfolding_all decide⟩
  · cases useEq with
    | true =>
        cases eqPct with
        | some e => exact Or.inl ⟨e, rfl, rfl, rfl⟩
        | none => obtain ⟨e, he, -⟩ := hEq rfl; cases he
    | false => exact Or.inr ⟨Or.inl rfl, rfl⟩
  · cases useEq with
    | true =>
        cases eqPct with
        | some e =>
            obtain ⟨e', he', h0, h100⟩ := hEq rfl
            have hee : e = e' := Option.some.inj he'
            subst hee
            show 0 ≤ round2 (n / 200 * 100 * 0.75 + e * 0.25)
            exact round2_nonneg (by linarith)
        | none => obtain ⟨e, he, -⟩ := hEq rfl; cases he
    | false =>
        obtain ⟨hh0, hh100, hs0, hs100⟩ := hFsc rfl
        cases eqPct with
        | some e =>
            show 0 ≤ round2 (n / 200 * 100 * 0.75 + hsc * 0.15 + ssc * 0.10)
            exact round2_nonneg (by linarith)
        | none =>
            show 0 ≤ round2 (n / 200 * 100 * 0.75 + hsc * 0.15 + ssc * 0.10)
            exact round2_nonneg (by linarith)
  · cases useEq with
    | true =>
        cases eqPct with
        | some e =>
            obtain ⟨e', he', h0, h100⟩ := hEq rfl
            have hee : e = e' := Option.some.inj he'
            subst hee
            show round2 (n / 200 * 100 * 0.75 + e * 0.25) ≤ 100
            exact round2_le_100 (by linarith)
        | none => obtain ⟨e, he, -⟩ := hEq rfl; cases he
    | false =>
        obtain ⟨hh0, hh100, hs0, hs100⟩ := hFsc rfl
        cases eqPct with
        | some e =>
            show round2 (n / 200 * 100 * 0.75 + hsc * 0.15 + ssc * 0.10) ≤ 100
            exact round2_le_100 (by linarith)
        | none =>
            show round2 (n / 200 * 100 * 0.75 + hsc * 0.15 + ssc * 0.10) ≤ 100
            exact round2_le_100 (by linarith)

/-- Witness for C2 at the concrete valid FSc input `sampleFscInput`. -/
theorem calculateAggregate_formula_witness :
    (validateAggregateInput sampleFscInput).isValid = true ∧
    (((∃ e, sampleFscInput.useEquivalence = true ∧
        sampleFscInput.equivalencePercentage = some e ∧
        (calculateAggregate sampleFscInput).totalAggregate =
          round2 (sampleFscInput.netScore / 200 * 100 * 0.75 + e * 0.25)) ∨
      ((sampleFscInput.useEquivalence = false ∨
          sampleFscInput.equivalencePercentage = none) ∧
        (calculateAggregate sampleFscInput).totalAggregate =
          round2 (sampleFscInput.netScore / 200 * 100 * 0.75 +
            sampleFscInput.hscPercentage * 0.15 + sampleFscInput.sscPercentage * 0.10))) ∧
    0 ≤ (calculateAggregate sampleFscInput).totalAggregate ∧
    (calculateAggregate sampleFscInput).totalAggregate ≤ 100 ∧
    calculateAggregate
      { netScore := 150, hscPercentage := 85, sscPercentage := 90,
        useEquivalence := false, equivalencePercentage := none } =
      { netContribution := 56.25, hscContribution := 12.75, sscContribution := 9,
        equivalenceContribution := none, totalAggregate := 78, isOALevel := false }) :=
  ⟨by with_unfolding_all decide,
   calculateAggregate_formula sampleFscInput (by with_unfolding_all decide)⟩

/- ============================================================
   C3
   ============================================================ -/

theorem ceil_roundtrip (target fixed raw X : ℚ)
    (h0 : 0 ≤ raw) (h200 : raw ≤ 200)
    (hX : X = max 0 (min 200 ((⌈raw⌉ : ℤ) : ℚ)) * 0.375 + fixed)
    (hraw : raw * 0.375 = target - fixed) :
    target - 0.01 ≤ round2 X := by
  have hle : raw ≤ ((⌈raw⌉ : ℤ) : ℚ) := Int.le_ceil raw
  have hc0 : (0 : ℚ) ≤ ((⌈raw⌉ : ℤ) : ℚ) := by linarith
  have hc200 : ((⌈raw⌉ : ℤ) : ℚ) ≤ 200 := by
    have h := Int.ceil_le.mpr (show raw ≤ ((200 : ℤ) : ℚ) by push_cast; linarith)
    exact_mod_cast h
  have hclamp : max 0 (min 200 ((⌈raw⌉ : ℤ) : ℚ)) = ((⌈raw⌉ : ℤ) : ℚ) := by
    rw [min_eq_right hc200, max_eq_right hc0]
  have h2 := round2_gt X
  rw [hclamp] at hX
  nlinarith [hle, hraw, hX, h2]

/-- C3: round-trip consistency of the inverse formula: whenever
`calculateRequiredNetScore` reports `achievable = true`, feeding the returned
(ceiling-rounded, clamped) `requiredNetScore` back into `calculateAggregate`
with the same fixed components and the same curriculum variant yields a
`totalAggregate` of at least `target - 0.01`: the ceiling never under-shoots
the target. -/
theorem requiredNetScore_roundtrip (targetAggregate hsc ssc : ℚ) (useEq : Bool)
    (eqPct : Option ℚ)
    (hach : (calculateRequiredNetScore targetAggregate hsc ssc useEq eqPct).achievable = true) :
    targetAggregate - 0.01 ≤
      (calculateAggregate
        { netScore :=
            (calculateRequiredNetScore targetAggregate hsc ssc useEq eqPct).requiredNetScore
          hscPercentage := hsc
          sscPercentage := ssc
          useEquivalence := useEq
          equivalencePercentage := eqPct }).totalAggregate := by
  cases useEq with
  | true =>
    cases eqPct with
    | some e =>
        have hNS : (calculateRequiredNetScore targetAggregate hsc ssc true
              (some e)).requiredNetScore =
            max 0 (min 200
              ((⌈(targetAggregate - e * 0.25) / 0.75 / 100 * 200⌉ : ℤ) : ℚ)) := rfl
        obtain ⟨h0, h200⟩ := of_decide_eq_true hach
        show targetAggregate - 0.01 ≤ round2
          ((calculateRequiredNetScore targetAggregate hsc ssc true
              (some e)).requiredNetScore / 200 * 100 * 0.75 + e * 0.25)
        refine ceil_roundtrip targetAggregate (e * 0.25)
          ((targetAggregate - e * 0.25) / 0.75 / 100 * 200) _ ?_ ?_ ?_ (by ring)
        · exact h0
        · exact h200
        · rw [hNS]; ring
    | none =>
        have hNS : (calculateRequiredNetScore targetAggregate hsc ssc true
              none).requiredNetScore =
            max 0 (min 200
              ((⌈(targetAggregate - hsc * 0.15 - ssc * 0.10) / 0.75 / 100 * 200⌉ : ℤ) : ℚ)) := rfl
        obtain ⟨h0, h200⟩ := of_decide_eq_true hach
        show targetAggregate - 0.01 ≤ round2
          ((calculateRequiredNetScore targetAggregate hsc ssc true
              none).requiredNetScore / 200 * 100 * 0.75 + hsc * 0.15 + ssc * 0.10)
        refine ceil_roundtrip targetAggregate (hsc * 0.15 + ssc * 0.10)
          ((targetAggregate - hsc * 0.15 - ssc * 0.10) / 0.75 / 100 * 200) _ ?_ ?_ ?_ (by ring)
        · exact h0
        · exact h200
        · rw [hNS]; ring
  | false =>
    cases eqPct with
    | some e =>
        have hNS : (calculateRequiredNetScore targetAggregate hsc ssc false
              (some e)).requiredNetScore =
            max 0 (min 200
              ((⌈(targetAggregate - hsc * 0.15 - ssc * 0.10) / 0.75 / 100 * 200⌉ : ℤ) : ℚ)) := rfl
        obtain ⟨h0, h200⟩ := of_decide_eq_true hach
        show targetAggregate - 0.01 ≤ round2
          ((calculateRequiredNetScore targetAggregate hsc ssc false
              (some e)).requiredNetScore / 200 * 100 * 0.75 + hsc * 0.15 + ssc * 0.10)
        refine ceil_roundtrip targetAggregate (hsc * 0.15 + ssc * 0.10)
          ((targetAggregate - hsc * 0.15 - ssc * 0.10) / 0.75 / 100 * 200) _ ?_ ?_ ?_ (by ring)
        · exact h0
        · exact h200
        · rw [hNS]; ring
    | none =>
        have hNS : (calculateRequiredNetScore targetAggregate hsc ssc false
              none).requiredNetScore =
            max 0 (min 200
              ((⌈(targetAggregate - hsc * 0.15 - ssc * 0.10) / 0.75 / 100 * 200⌉ : ℤ) : ℚ)) := rfl
        obtain ⟨h0, h200⟩ := of_decide_eq_true hach
        show targetAggregate - 0.01 ≤ round2
          ((calculateRequiredNetScore targetAggregate hsc ssc false
              none).requiredNetScore / 200 * 100 * 0.75 + hsc * 0.15 + ssc * 0.10)
        refine ceil_roundtrip targetAggregate (hsc * 0.15 + ssc * 0.10)
          ((targetAggregate - hsc * 0.15 - ssc * 0.10) / 0.75 / 100 * 200) _ ?_ ?_ ?_ (by ring)
        · exact h0
        · exact h200
        · rw [hNS]; ring

/-- Witness for C3 at target 76, HSC 85, SSC 90, local variant. -/
theorem requiredNetScore_roundtrip_witness :
    (calculateRequiredNetScore 76 85 90 false none).achievable = true ∧
    (76 : ℚ) - 0.01 ≤
      (calculateAggregate
        { netScore := (calculateRequiredNetScore 76 85 90 false none).requiredNetScore
          hscPercentage := 85
          sscPercentage := 90
          useEquivalence := false
          equivalencePercentage := none }).totalAggregate :=
  ⟨by with_unfolding_all decide,
   requiredNetScore_roundtrip 76 85 90 false none (by with_unfolding_all decide)⟩

/- ============================================================
   C5
   ============================================================ -/

theorem meritScanStep_inv (u : ℚ) (L : List MeritListThreshold) (st : MeritScanState)
    (t : MeritListThreshold) (ht : t ∈ L)
    (h : ∀ n, st.predictedList = some n →
      ∃ t' ∈ L, t'.meritListNumber = n ∧ ∃ c, t'.closingAggregate = some c ∧
        0 ≤ u - c ∧ st.confidence = getConfidence (u - c)) :
    ∀ n, (meritScanStep u st t).predictedList = some n →
      ∃ t' ∈ L, t'.meritListNumber = n ∧ ∃ c, t'.closingAggregate = some c ∧
        0 ≤ u - c ∧ (meritScanStep u st t).confidence = getConfidence (u - c) := by
  intro n hn
  rcases hca : t.closingAggregate with _ | c
  · simp only [meritScanStep, hca] at hn ⊢
    exact h n hn
  · simp only [meritScanStep, hca] at hn ⊢
    by_cases hd : u - c ≥ 0
    · rw [if_pos hd] at hn ⊢
      cases hp : st.predictedList with
      | none =>
          rw [hp] at hn
          dsimp only at hn ⊢
          obtain rfl : t.meritListNumber = n := Option.some.inj hn
          exact ⟨t, ht, rfl, c, hca, hd, rfl⟩
      | some prev =>
          rw [hp] at hn
          dsimp only at hn ⊢
          by_cases hlt : ltClosest |u - c| st.closestDifference = true
          · rw [if_pos hlt] at hn ⊢
            dsimp only at hn ⊢
            obtain rfl : t.meritListNumber = n := Option.some.inj hn
            exact ⟨t, ht, rfl, c, hca, hd, rfl⟩
          · rw [if_neg hlt] at hn ⊢
            dsimp only at hn ⊢
            have := h n (by rw [hp]; exact hn)
            exact this
    · rw [if_neg hd] at hn ⊢
      by_cases halt : st.predictedList = none ∧ |u - c| < 3
      · rw [if_pos halt] at hn ⊢
        dsimp only at hn ⊢
        rw [halt.1] at hn
        cases hn
      · rw [if_neg halt] at hn ⊢
        exact h n hn

theorem meritScan_foldl_inv (u : ℚ) (L : List MeritListThreshold) :
    ∀ (l : List MeritListThreshold) (st : MeritScanState),
      (∀ t ∈ l, t ∈ L) →
      (∀ n, st.predictedList = some n →
        ∃ t' ∈ L, t'.meritListNumber = n ∧ ∃ c, t'.closingAggregate = some c ∧
          0 ≤ u - c ∧ st.confidence = getConfidence (u - c)) →
      ∀ n, (l.foldl (meritScanStep u) st).predictedList = some n →
        ∃ t' ∈ L, t'.meritListNumber = n ∧ ∃ c, t'.closingAggregate = some c ∧
          0 ≤ u - c ∧
          (l.foldl (meritScanStep u) st).confidence = getConfidence (u - c) := by
  intro l
  induction l with
  | nil => intro st _ h; exact h
  | cons t rest ih =>
      intro st hsub h
      exact ih (meritScanStep u st t)
        (fun t' ht' => hsub t' (List.mem_cons_of_mem _ ht'))
        (meritScanStep_inv u L st t (hsub t (List.mem_cons_self t rest)) h)

/-- C5: for a non-empty threshold list, whenever `predictMeritList` predicts a
round, that round appears in the input with a present closing aggregate the
user clears (`closingAggregate ≤ userAggregate`), and the reported confidence
is High exactly when the clearing margin is at least 2 and Medium otherwise;
the concrete 80 / 77 / 74 ladder at user aggregate 76 predicts round 3 with
High confidence. -/
theorem predictMeritList_cleared (input : MeritListPredictionInput) (n : ℤ)
    (hne : input.thresholds ≠ [])
    (hp : (predictMeritList input).predictedList = some n) :
    (∃ t ∈ input.thresholds, t.meritListNumber = n ∧
      ∃ c, t.closingAggregate = some c ∧ c ≤ input.userAggregate ∧
        (predictMeritList input).confidence =
          (if 2 ≤ input.userAggregate - c then Confidence.High else Confidence.Medium)) ∧
    ((predictMeritList
        { userAggregate := 76,
          thresholds :=
            [{ meritListNumber := 1, closingAggregate := some 80, closingPosition := none },
             { meritListNumber := 2, closingAggregate := some 77, closingPosition := none },
             { meritListNumber := 3, closingAggregate := some 74,
               closingPosition := none }] }).predictedList = some 3 ∧
     (predictMeritList
        { userAggregate := 76,
          thresholds :=
            [{ meritListNumber := 1, closingAggregate := some 80, closingPosition := none },
             { meritListNumber := 2, closingAggregate := some 77, closingPosition := none },
             { meritListNumber := 3, closingAggregate := some 74,
               closingPosition := none }] }).confidence = Confidence.High) := by
  have hlen : ¬input.thresholds.length = 0 := by
    simpa [List.length_eq_zero] using hne
  refine ⟨?_, by with_unfolding_all decide, by with_unfolding_all decide⟩
  simp only [predictMeritList, if_neg hlen] at hp ⊢
  have hinv := meritScan_foldl_inv input.userAggregate input.thresholds
    (input.thresholds.insertionSort (fun a b => a.meritListNumber ≤ b.meritListNumber))
    { predictedList := none, confidence := Confidence.Low, alternatives := [],
      closestDifference := none }
    (fun t ht => (List.mem_insertionSort _).mp ht)
    (fun m hm => by cases hm)
  obtain ⟨t, htL, hnum, c, hca, h0, hconf⟩ := hinv n hp
  refine ⟨t, htL, hnum, c, hca, by linarith, ?_⟩
  rw [hconf]
  unfold getConfidence MERIT_LIST_CONFIG
  dsimp only
  split_ifs <;> first | rfl | linarith

/-- Witness for C5 at the 80 / 77 / 74 ladder with user aggregate 76. -/
theorem predictMeritList_cleared_witness :
    sampleMeritInput.thresholds ≠ [] ∧
    (predictMeritList sampleMeritInput).predictedList = some 3 ∧
    ((∃ t ∈ sampleMeritInput.thresholds, t.meritListNumber = 3 ∧
      ∃ c, t.closingAggregate = some c ∧ c ≤ sampleMeritInput.userAggregate ∧
        (predictMeritList sampleMeritInput).confidence =
          (if 2 ≤ sampleMeritInput.userAggregate - c then Confidence.High
           else Confidence.Medium)) ∧
    ((predictMeritList
        { userAggregate := 76,
          thresholds :=
            [{ meritListNumber := 1, closingAggregate := some 80, closingPosition := none },
             { meritListNumber := 2, closingAggregate := some 77, closingPosition := none },
             { meritListNumber := 3, closingAggregate := some 74,
               closingPosition := none }] }).predictedList = some 3 ∧
     (predictMeritList
        { userAggregate := 76,
          thresholds :=
            [{ meritListNumber := 1, closingAggregate := some 80, closingPosition := none },
             { meritListNumber := 2, closingAggregate := some 77, closingPosition := none },
             { meritListNumber := 3, closingAggregate := some 74,
               closingPosition := none }] }).confidence = Confidence.High)) :=
  ⟨by with_unfolding_all decide, by with_unfolding_all decide,
   predictMeritList_cleared sampleMeritInput 3 (by with_unfolding_all decide)
     (by with_unfolding_all decide)⟩

/- ============================================================
   C7
   ============================================================ -/

theorem assignRanks_map_overallScore (n : ℕ) (l : List PreferenceItem) :
    (assignRanks n l).map (fun p => p.overallScore) = l.map (fun p => p.overallScore) := by
  induction l generalizing n with
  | nil => rfl
  | cons a l ih => simp [assignRanks, ih]

theorem assignRanks_map_stripRank (n : ℕ) (l : List PreferenceItem) :
    (assignRanks n l).map stripRank = l.map stripRank := by
  induction l generalizing n with
  | nil => rfl
  | cons a l ih => simp [assignRanks, ih, stripRank]

theorem assignRanks_get? (n : ℕ) (l : List PreferenceItem) :
    ∀ (i : ℕ) (item : PreferenceItem),
      (assignRanks n l).get? i = some item → item.rank = n + i := by
  induction l generalizing n with
  | nil => intro i item h; simp [assignRanks] at h
  | cons a l ih =>
      intro i item h
      cases i with
      | zero =>
          simp only [assignRanks, List.get?] at h
          obtain rfl : { a with rank := n } = item := Option.some.inj h
          simp
      | succ j =>
          have hj := ih (n + 1) j item (by simpa [assignRanks, List.get?] using h)
          omega

theorem mem_assignRanks {item : PreferenceItem} {n : ℕ} {l : List PreferenceItem}
    (h : item ∈ assignRanks n l) :
    ∃ q ∈ l, item.riskCategory = q.riskCategory ∧
      item.chancePercentage = q.chancePercentage := by
  induction l generalizing n with
  | nil => simp [assignRanks] at h
  | cons a l ih =>
      rcases List.mem_cons.mp h with heq | htail
      · exact ⟨a, List.mem_cons_self a l, by rw [heq], by rw [heq]⟩
      · obtain ⟨q, hq, h1, h2⟩ := ih htail
        exact ⟨q, List.mem_cons_of_mem a hq, h1, h2⟩

theorem filter_risk_partition (l : List PreferenceItem) :
    (l.filter fun p => p.riskCategory == RiskCategory.Safe).length +
      (l.filter fun p => p.riskCategory == RiskCategory.Moderate).length +
      (l.filter fun p => p.riskCategory == RiskCategory.Ambitious).length = l.length := by
  induction l with
  | nil => rfl
  | cons a l ih =>
      cases h : a.riskCategory <;>
        simp [List.filter_cons, h, List.length_cons] <;>
        omega

/-- C7: with a non-empty program list, `generatePreferenceList`
(1) returns `rankedList` sorted non-increasingly by `overallScore`,
(2) keeps items with equal `overallScore` in input order (stability),
(3) assigns 1-based ranks in list order after sorting,
(4) partitions the list: `safeCount + moderateCount + ambitiousCount =
totalPrograms`, and
(5) classifies each item by `getRiskCategory` of its chance, which is Safe
iff chance ≥ 70, Moderate iff 40 ≤ chance < 70 and Ambitious iff chance < 40. -/
theorem generatePreferenceList_ranked (userAggregate : ℚ) (programs : List ProgramOption)
    (interests : UserInterests) (hne : programs ≠ []) :
    (generatePreferenceList userAggregate programs interests).rankedList.Sorted
        (fun a b => b.overallScore ≤ a.overallScore) ∧
    (∀ a b, List.Sublist [a, b] (programs.map (scoreProgram userAggregate interests)) →
      a.overallScore = b.overallScore →
      List.Sublist [a, b]
        ((generatePreferenceList userAggregate programs interests).rankedList.map stripRank)) ∧
    (∀ (i : ℕ) (item : PreferenceItem),
      (generatePreferenceList userAggregate programs interests).rankedList.get? i =
        some item → item.rank = i + 1) ∧
    ((generatePreferenceList userAggregate programs interests).summary.safeCount +
      (generatePreferenceList userAggregate programs interests).summary.moderateCount +
      (generatePreferenceList userAggregate programs interests).summary.ambitiousCount =
      (generatePreferenceList userAggregate programs interests).summary.totalPrograms) ∧
    (∀ item ∈ (generatePreferenceList userAggregate programs interests).rankedList,
      item.riskCategory = getRiskCategory item.chancePercentage) ∧
    (∀ chance : ℤ,
      (getRiskCategory chance = RiskCategory.Safe ↔ 70 ≤ chance) ∧
      (getRiskCategory chance = RiskCategory.Moderate ↔ 40 ≤ chance ∧ chance < 70) ∧
      (getRiskCategory chance = RiskCategory.Ambitious ↔ chance < 40)) := by
  have hlen : ¬programs.length = 0 := by simpa [List.length_eq_zero] using hne
  simp only [generatePreferenceList, if_neg hlen]
  refine ⟨?_, ?_, ?_, ?_, ?_, ?_⟩
  · -- sorted
    have hs := List.sorted_insertionSort
      (fun (a b : PreferenceItem) => b.overallScore ≤ a.overallScore)
      (programs.map (scoreProgram userAggregate interests))
    have h1 : (((programs.map (scoreProgram userAggregate interests)).insertionSort
        (fun a b => b.overallScore ≤ a.overallScore)).map
          (fun p => p.overallScore)).Pairwise (fun x y => y ≤ x) :=
      (List.pairwise_map).mpr hs
    rw [← assignRanks_map_overallScore 1] at h1
    exact (List.pairwise_map).mp h1
  · -- stability
    intro a b hab heq
    have hr : b.overallScore ≤ a.overallScore := le_of_eq heq.symm
    have h2 : List.Sublist [a, b]
        ((programs.map (scoreProgram userAggregate interests)).insertionSort
          (fun a b => b.overallScore ≤ a.overallScore)) :=
      List.pair_sublist_insertionSort hr hab
    rw [assignRanks_map_stripRank]
    have h3 : ∀ p ∈ (programs.map (scoreProgram userAggregate interests)).insertionSort
        (fun a b => b.overallScore ≤ a.overallScore), stripRank p = id p := by
      intro p hp
      obtain ⟨q, hq, rfl⟩ := List.mem_map.mp ((List.mem_insertionSort _).mp hp)
      rfl
    rw [List.map_congr_left h3, List.map_id]
    exact h2
  · -- ranks
    intro i item h
    have := assignRanks_get? 1 _ i item h
    omega
  · -- partition
    exact filter_risk_partition _
  · -- risk category stored
    intro item hitem
    obtain ⟨q, hq, hrisk, hchance⟩ := mem_assignRanks hitem
    obtain ⟨p, hp, rfl⟩ := List.mem_map.mp ((List.mem_insertionSort _).mp hq)
    rw [hrisk, hchance]
    rfl
  · -- risk thresholds
    intro chance
    unfold getRiskCategory PREFERENCE_CONFIG
    dsimp only
    by_cases h1 : chance ≥ 70
    · rw [if_pos h1]
      exact ⟨⟨fun _ => h1, fun _ => rfl⟩,
        ⟨fun hx => RiskCategory.noConfusion hx, fun hx => absurd h1 (by omega)⟩,
        ⟨fun hx => RiskCategory.noConfusion hx, fun hx => absurd h1 (by omega)⟩⟩
    · rw [if_neg h1]
      by_cases h2 : chance ≥ 40
      · rw [if_pos h2]
        exact ⟨⟨fun hx => RiskCategory.noConfusion hx, fun hx => absurd hx (by omega)⟩,
          ⟨fun _ => ⟨by omega, by omega⟩, fun _ => rfl⟩,
          ⟨fun hx => RiskCategory.noConfusion hx, fun hx => absurd hx (by omega)⟩⟩
      · rw [if_neg h2]
        exact ⟨⟨fun hx => RiskCategory.noConfusion hx, fun hx => absurd hx (by omega)⟩,
          ⟨fun hx => RiskCategory.noConfusion hx, fun hx => absurd hx (by omega)⟩,
          ⟨fun _ => by omega, fun _ => rfl⟩⟩

/-- Witness for C7 at a concrete one-program list. -/
theorem generatePreferenceList_ranked_witness :
    samplePrograms ≠ [] ∧
    ((generatePreferenceList 78 samplePrograms sampleInterests).rankedList.Sorted
        (fun a b => b.overallScore ≤ a.overallScore) ∧
    (∀ a b, List.Sublist [a, b] (samplePrograms.map (scoreProgram 78 sampleInterests)) →
      a.overallScore = b.overallScore →
      List.Sublist [a, b]
        ((generatePreferenceList 78 samplePrograms sampleInterests).rankedList.map
          stripRank)) ∧
    (∀ (i : ℕ) (item : PreferenceItem),
      (generatePreferenceList 78 samplePrograms sampleInterests).rankedList.get? i =
        some item → item.rank = i + 1) ∧
    ((generatePreferenceList 78 samplePrograms sampleInterests).summary.safeCount +
      (generatePreferenceList 78 samplePrograms sampleInterests).summary.moderateCount +
      (generatePreferenceList 78 samplePrograms sampleInterests).summary.ambitiousCount =
      (generatePreferenceList 78 samplePrograms sampleInterests).summary.totalPrograms) ∧
    (∀ item ∈ (generatePreferenceList 78 samplePrograms sampleInterests).rankedList,
      item.riskCategory = getRiskCategory item.chancePercentage) ∧
    (∀ chance : ℤ,
      (getRiskCategory chance = RiskCategory.Safe ↔ 70 ≤ chance) ∧
      (getRiskCategory chance = RiskCategory.Moderate ↔ 40 ≤ chance ∧ chance < 70) ∧
      (getRiskCategory chance = RiskCategory.Ambitious ↔ chance < 40))) :=
  ⟨by with_unfolding_all decide,
   generatePreferenceList_ranked 78 samplePrograms sampleInterests
     (by with_unfolding_all decide)⟩
